import Mathlib

/-!
Shallow embedding of the similarity-matching and recommendation core of the
user-playlist-generator repository (src/lite_script.py, src/audio_utils.py and
the batch builder under "src/db creation/"), together with theorems settling
the specification claims about that code.

Numeric feature values are modelled as rationals; identifiers as strings; the
audio_features table as a list of rows; external collaborators (Spotify client,
YouTube search/extraction, Last.fm, the random number generator) as explicit
oracle parameters.
-/

namespace UserPlaylistGenerator

/-- The features dict handed to the similarity query (keys as in the source:
tempo, beat_strength, spectral_centroid, ..., instrumentalness). -/
structure Features where
  tempo : ℚ
  key_estimate : ℚ
  beat_strength : ℚ
  spectral_centroid : ℚ
  spectral_rolloff : ℚ
  spectral_bandwidth : ℚ
  spectral_contrast : ℚ
  zero_crossing_rate : ℚ
  rms_energy : ℚ
  harmonic_mean : ℚ
  percussive_mean : ℚ
  mfcc_mean : ℚ
  energy : ℚ
  danceability : ℚ
  valence : ℚ
  acousticness : ℚ
  instrumentalness : ℚ
  deriving Repr, DecidableEq

/-- A row of the audio_features table (column names as in the INSERT statement
of add_track_to_audio_features_db). -/
structure AudioFeaturesRow where
  id : Nat
  spotify_track_id : String
  artist_name : String
  track_name : String
  tempo_bpm : ℚ
  key_musical : ℚ
  beat_regularity : ℚ
  brightness_hz : ℚ
  treble_hz : ℚ
  fullness_hz : ℚ
  dynamic_range : ℚ
  percussiveness : ℚ
  loudness : ℚ
  warmth : ℚ
  punch : ℚ
  texture : ℚ
  energy : ℚ
  danceability : ℚ
  mood_positive : ℚ
  acousticness : ℚ
  instrumental : ℚ
  popularity : Int
  spotify_uri : String
  youtube_match : String
  deriving Repr, DecidableEq

/-- One result dict of find_most_similar_track_in_db.  The SQL query returns
SQRT of the weighted sum as similarity_distance; since square root is monotone
and adds nothing decidable, the squared distance is carried here and the
theorems about ordering and the metric are stated through Real.sqrt of it. -/
structure SimilarTrack where
  id : String
  artist_name : String
  track_name : String
  uri : String
  popularity : Int
  youtube_match : String
  similarity_distance_sq : ℚ
  deriving Repr, DecidableEq

/-- The weighted Euclidean distance (before SQRT) of the similarity SQL in
find_most_similar_track_in_db: each summand is POW((column - query)/scale, 2)
times its weight, in the order written in the query. -/
def similarity_distance_sq (r : AudioFeaturesRow) (f : Features) : ℚ :=
  ((r.tempo_bpm - f.tempo) / 200) ^ 2 * (8 / 10)
    + (r.beat_regularity - f.beat_strength) ^ 2 * (12 / 10)
    + ((r.brightness_hz - f.spectral_centroid) / 5000) ^ 2 * 1
    + ((r.treble_hz - f.spectral_rolloff) / 10000) ^ 2 * (7 / 10)
    + ((r.fullness_hz - f.spectral_bandwidth) / 5000) ^ 2 * (6 / 10)
    + ((r.dynamic_range - f.spectral_contrast) / 40) ^ 2 * (9 / 10)
    + (r.percussiveness - f.zero_crossing_rate) ^ 2 * (8 / 10)
    + (r.loudness - f.rms_energy) ^ 2 * (7 / 10)
    + (r.warmth - f.harmonic_mean) ^ 2 * 1
    + (r.punch - f.percussive_mean) ^ 2 * (8 / 10)
    + (r.texture - f.mfcc_mean) ^ 2 * (9 / 10)
    + (r.energy - f.energy) ^ 2 * (15 / 10)
    + (r.danceability - f.danceability) ^ 2 * (13 / 10)
    + (r.mood_positive - f.valence) ^ 2 * (12 / 10)
    + (r.acousticness - f.acousticness) ^ 2 * 1
    + (r.instrumental - f.instrumentalness) ^ 2 * (8 / 10)

/-- The mapping of a stored row back to a features dict, as performed by the
SELECT that re-fetches seed features from the database (features_from_db in
get_similar_tracks_by_audio_features_db and the identical mapping in
run_enhanced_recommendation_script). -/
def row_features (r : AudioFeaturesRow) : Features where
  tempo := r.tempo_bpm
  key_estimate := r.key_musical
  beat_strength := r.beat_regularity
  spectral_centroid := r.brightness_hz
  spectral_rolloff := r.treble_hz
  spectral_bandwidth := r.fullness_hz
  spectral_contrast := r.dynamic_range
  zero_crossing_rate := r.percussiveness
  rms_energy := r.loudness
  harmonic_mean := r.warmth
  percussive_mean := r.punch
  mfcc_mean := r.texture
  energy := r.energy
  danceability := r.danceability
  valence := r.mood_positive
  acousticness := r.acousticness
  instrumentalness := r.instrumental

/-- Relational ordering used by the ORDER BY similarity_distance ASC clause
(square root omitted: it is monotone, so it induces the same order). -/
def by_distance (f : Features) (r₁ r₂ : AudioFeaturesRow) : Prop :=
  similarity_distance_sq r₁ f ≤ similarity_distance_sq r₂ f

instance (f : Features) : DecidableRel (by_distance f) := fun r₁ r₂ =>
  inferInstanceAs
    (Decidable (similarity_distance_sq r₁ f ≤ similarity_distance_sq r₂ f))

/-- Shallow embedding of find_most_similar_track_in_db: guard on an empty
features dict, exclude the liked track ids (the NOT IN clause; track ids are
modelled as non-null strings, so the IS NOT NULL conjunct is identically
true), order all remaining rows by ascending similarity distance, keep the
first max_results, and package each row as a result dict. -/
def find_most_similar_track_in_db (db : List AudioFeaturesRow)
    (features : Option Features) (liked_track_ids : List String)
    (max_results : Nat) : List SimilarTrack :=
  match features with
  | none => []
  | some f =>
    let rows := db.filter fun r => !(liked_track_ids.contains r.spotify_track_id)
    let sorted := rows.insertionSort (by_distance f)
    (sorted.take max_results).map fun r =>
      { id := r.spotify_track_id
        artist_name := r.artist_name
        track_name := r.track_name
        uri := r.spotify_uri
        popularity := r.popularity
        youtube_match := r.youtube_match
        similarity_distance_sq := similarity_distance_sq r f }

instance (f : Features) : IsTotal AudioFeaturesRow (by_distance f) :=
  ⟨fun _ _ => le_total _ _⟩

instance (f : Features) : IsTrans AudioFeaturesRow (by_distance f) :=
  ⟨fun _ _ _ => le_trans⟩

/-- C1: for every query feature vector, exclusion list and limit k, the
nearest-neighbor query returns at most k candidates, sorted in non-decreasing
order of their similarity distance (the SQRT of the stored squared distance),
and no returned candidate has a track id belonging to the exclusion set. -/
theorem find_most_similar_returns_sorted_bounded_excluding
    (db : List AudioFeaturesRow) (f : Features) (excl : List String) (k : Nat) :
    (find_most_similar_track_in_db db (some f) excl k).length ≤ k ∧
    List.Pairwise
      (fun c₁ c₂ : SimilarTrack =>
        Real.sqrt (c₁.similarity_distance_sq : ℝ) ≤
          Real.sqrt (c₂.similarity_distance_sq : ℝ))
      (find_most_similar_track_in_db db (some f) excl k) ∧
    ∀ c ∈ find_most_similar_track_in_db db (some f) excl k,
      excl.contains c.id = false := by
  unfold find_most_similar_track_in_db
  refine ⟨?_, ?_, ?_⟩
  · simp only [List.length_map]
    exact List.length_take_le k _
  · have hsorted : List.Pairwise (by_distance f)
        ((db.filter fun r => !(excl.contains r.spotify_track_id)).insertionSort
          (by_distance f)) :=
      List.sorted_insertionSort (by_distance f) _
    have htake : List.Pairwise (by_distance f)
        (((db.filter fun r => !(excl.contains r.spotify_track_id)).insertionSort
          (by_distance f)).take k) :=
      hsorted.sublist (List.take_sublist k _)
    refine List.Pairwise.map _ ?_ htake
    intro a b hab
    exact Real.sqrt_le_sqrt (by exact_mod_cast hab)
  · intro c hc
    rcases List.mem_map.mp hc with ⟨r, hr, hrc⟩
    have hr' : r ∈ (db.filter fun r => !(excl.contains r.spotify_track_id)).insertionSort
        (by_distance f) := (List.take_sublist k _).mem hr
    have hr'' : r ∈ db.filter fun r => !(excl.contains r.spotify_track_id) :=
      (List.mem_insertionSort (by_distance f)).mp hr'
    have hpred := List.of_mem_filter hr''
    have hid : c.id = r.spotify_track_id := by rw [← hrc]
    rw [hid]
    simpa using hpred

/-- C1 witness: the guarantees of the nearest-neighbor query evaluated at a
concrete two-row database, exclusion list and limit. -/
theorem find_most_similar_returns_sorted_bounded_excluding_witness :
    (find_most_similar_track_in_db
        [{ id := 1, spotify_track_id := "t1", artist_name := "A", track_name := "s1",
           tempo_bpm := 120, key_musical := 0, beat_regularity := 1/2,
           brightness_hz := 1000, treble_hz := 2000, fullness_hz := 1500,
           dynamic_range := 20, percussiveness := 1/10, loudness := 1/2,
           warmth := 1/2, punch := 1/4, texture := 0, energy := 4/5,
           danceability := 7/10, mood_positive := 3/5, acousticness := 1/10,
           instrumental := 0, popularity := 50, spotify_uri := "uri1",
           youtube_match := "m1" },
         { id := 2, spotify_track_id := "t2", artist_name := "B", track_name := "s2",
           tempo_bpm := 60, key_musical := 3, beat_regularity := 1/4,
           brightness_hz := 500, treble_hz := 900, fullness_hz := 700,
           dynamic_range := 10, percussiveness := 1/5, loudness := 1/4,
           warmth := 1/4, punch := 1/8, texture := 1, energy := 1/10,
           danceability := 1/5, mood_positive := 1/5, acousticness := 4/5,
           instrumental := 1/2, popularity := 10, spotify_uri := "uri2",
           youtube_match := "m2" }]
        (some { tempo := 120, key_estimate := 0, beat_strength := 1/2,
                spectral_centroid := 1000, spectral_rolloff := 2000,
                spectral_bandwidth := 1500, spectral_contrast := 20,
                zero_crossing_rate := 1/10, rms_energy := 1/2,
                harmonic_mean := 1/2, percussive_mean := 1/4, mfcc_mean := 0,
                energy := 4/5, danceability := 7/10, valence := 3/5,
                acousticness := 1/10, instrumentalness := 0 })
        ["t1"] 1).length ≤ 1 :=
  (find_most_similar_returns_sorted_bounded_excluding _ _ _ _).1

/-- C2: the weighted Euclidean distance of the similarity query is zero
between a row and its own feature vector, and is symmetric in its two
arguments, both for the squared form computed in SQL and for its square
root (the reported similarity_distance). -/
theorem similarity_distance_self_zero_symm (a b : AudioFeaturesRow) :
    similarity_distance_sq a (row_features a) = 0 ∧
    similarity_distance_sq a (row_features b) =
      similarity_distance_sq b (row_features a) ∧
    Real.sqrt ((similarity_distance_sq a (row_features a) : ℚ) : ℝ) = 0 ∧
    Real.sqrt ((similarity_distance_sq a (row_features b) : ℚ) : ℝ) =
      Real.sqrt ((similarity_distance_sq b (row_features a) : ℚ) : ℝ) := by
  have hself : similarity_distance_sq a (row_features a) = 0 := by
    simp [similarity_distance_sq, row_features]
  have hsymm : similarity_distance_sq a (row_features b) =
      similarity_distance_sq b (row_features a) := by
    simp only [similarity_distance_sq, row_features]
    ring
  refine ⟨hself, hsymm, ?_, ?_⟩
  · rw [hself]; simp
  · rw [hsymm]

/-- Point lookup of a row by spotify_track_id (the SELECT ... WHERE
spotify_track_id = %s used by ensure_track_in_db and the feature re-fetch). -/
def get_track (db : List AudioFeaturesRow) (tid : String) :
    Option AudioFeaturesRow :=
  db.find? fun r => r.spotify_track_id == tid

/-- Shallow embedding of the INSERT of add_track_to_audio_features_db in
lite_script.py: ON CONFLICT (spotify_track_id) DO NOTHING, RETURNING id.  On a
conflicting track id the table is unchanged and no id is returned (the
function then returns None); otherwise the prepared row is appended and its id
returned.  The row argument stands for the already-prepared tuple (values
rounded to six decimals upstream of the statement). -/
def add_track_to_audio_features_db (db : List AudioFeaturesRow)
    (row : AudioFeaturesRow) : List AudioFeaturesRow × Option Nat :=
  if db.any fun r => r.spotify_track_id == row.spotify_track_id then
    (db, none)
  else
    (db ++ [row], some row.id)

/-- The column overwrite performed by the ON CONFLICT ... DO UPDATE SET clause
of insert_track_to_db in "db creation/build_audio_features_from_spotify.py":
every feature column plus popularity and youtube_match is replaced by the
EXCLUDED (new) value; id, spotify_track_id, artist_name, track_name and
spotify_uri keep the stored values. -/
def overwrite_feature_columns (r new : AudioFeaturesRow) : AudioFeaturesRow :=
  { r with
    tempo_bpm := new.tempo_bpm
    key_musical := new.key_musical
    beat_regularity := new.beat_regularity
    brightness_hz := new.brightness_hz
    treble_hz := new.treble_hz
    fullness_hz := new.fullness_hz
    dynamic_range := new.dynamic_range
    percussiveness := new.percussiveness
    loudness := new.loudness
    warmth := new.warmth
    punch := new.punch
    texture := new.texture
    energy := new.energy
    danceability := new.danceability
    mood_positive := new.mood_positive
    acousticness := new.acousticness
    instrumental := new.instrumental
    popularity := new.popularity
    youtube_match := new.youtube_match }

/-- Shallow embedding of insert_track_to_db of the batch builder: INSERT with
ON CONFLICT (spotify_track_id) DO UPDATE SET over all feature columns.  The
Bool mirrors the python return value (True on success). -/
def insert_track_to_db (db : List AudioFeaturesRow)
    (row : AudioFeaturesRow) : List AudioFeaturesRow × Bool :=
  if db.any fun r => r.spotify_track_id == row.spotify_track_id then
    (db.map fun r =>
      if r.spotify_track_id == row.spotify_track_id then
        overwrite_feature_columns r row
      else r, true)
  else
    (db ++ [row], true)

/-- Helper: looking a fresh id up in a table that did not contain it before an
append finds exactly the appended row. -/
theorem get_track_append_of_not_found (db : List AudioFeaturesRow)
    (v : AudioFeaturesRow) (h : get_track db v.spotify_track_id = none) :
    get_track (db ++ [v]) v.spotify_track_id = some v := by
  unfold get_track at h ⊢
  rw [List.find?_append, h]
  simp

/-- Helper: a table with no row for an id reports no conflict for that id. -/
theorem any_eq_false_of_get_track_none (db : List AudioFeaturesRow)
    (tid : String) (h : get_track db tid = none) :
    (db.any fun r => r.spotify_track_id == tid) = false := by
  unfold get_track at h
  rw [List.find?_eq_none] at h
  simp only [List.any_eq_false]
  intro r hr
  simpa using h r hr

/-- C3 (amended): the upsert of the recommendation path,
add_track_to_audio_features_db, is insert-if-absent: inserting a row for a
fresh track id and then any second row carrying the same track id leaves the
first-inserted values untouched, and the second insert reports no new id.
(The claim as frozen also covered the batch builder's insert_track_to_db,
which instead overwrites on conflict; see the counterexample.) -/
theorem add_track_insert_if_absent (db : List AudioFeaturesRow)
    (v v' : AudioFeaturesRow)
    (habsent : get_track db v.spotify_track_id = none)
    (hsame : v'.spotify_track_id = v.spotify_track_id) :
    get_track
        (add_track_to_audio_features_db
          (add_track_to_audio_features_db db v).1 v').1
        v.spotify_track_id = some v ∧
    (add_track_to_audio_features_db
        (add_track_to_audio_features_db db v).1 v').2 = none := by
  have hnoconf := any_eq_false_of_get_track_none db v.spotify_track_id habsent
  have hfirst : add_track_to_audio_features_db db v = (db ++ [v], some v.id) := by
    unfold add_track_to_audio_features_db
    rw [hnoconf]
    simp
  have hconf : ((db ++ [v]).any fun r => r.spotify_track_id == v'.spotify_track_id)
      = true := by
    simp only [List.any_eq_true]
    exact ⟨v, by simp [hsame]⟩
  have hsecond : add_track_to_audio_features_db (db ++ [v]) v' = (db ++ [v], none) := by
    unfold add_track_to_audio_features_db
    rw [hconf]
    simp
  rw [hfirst]
  simp only
  rw [hsecond]
  exact ⟨get_track_append_of_not_found db v habsent, rfl⟩

/-- C3 witness: the insert-if-absent guarantee evaluated on an empty table and
two concrete rows sharing a track id but with different energy values. -/
theorem add_track_insert_if_absent_witness :
    get_track [] "t1" = none ∧
    get_track
        (add_track_to_audio_features_db
          (add_track_to_audio_features_db []
            { id := 1, spotify_track_id := "t1", artist_name := "A",
              track_name := "s", tempo_bpm := 100, key_musical := 0,
              beat_regularity := 0, brightness_hz := 0, treble_hz := 0,
              fullness_hz := 0, dynamic_range := 0, percussiveness := 0,
              loudness := 0, warmth := 0, punch := 0, texture := 0,
              energy := 1/2, danceability := 0, mood_positive := 0,
              acousticness := 0, instrumental := 0, popularity := 5,
              spotify_uri := "u", youtube_match := "m" }).1
          { id := 2, spotify_track_id := "t1", artist_name := "A2",
            track_name := "s2", tempo_bpm := 90, key_musical := 1,
            beat_regularity := 1, brightness_hz := 1, treble_hz := 1,
            fullness_hz := 1, dynamic_range := 1, percussiveness := 1,
            loudness := 1, warmth := 1, punch := 1, texture := 1,
            energy := 9/10, danceability := 1, mood_positive := 1,
            acousticness := 1, instrumental := 1, popularity := 6,
            spotify_uri := "u2", youtube_match := "m2" }).1 "t1"
      = some
          { id := 1, spotify_track_id := "t1", artist_name := "A",
            track_name := "s", tempo_bpm := 100, key_musical := 0,
            beat_regularity := 0, brightness_hz := 0, treble_hz := 0,
            fullness_hz := 0, dynamic_range := 0, percussiveness := 0,
            loudness := 0, warmth := 0, punch := 0, texture := 0,
            energy := 1/2, danceability := 0, mood_positive := 0,
            acousticness := 0, instrumental := 0, popularity := 5,
            spotify_uri := "u", youtube_match := "m" } :=
  ⟨by decide, (add_track_insert_if_absent _ _ _ (by decide) (by decide)).1⟩

/-- C3 counterexample: the batch builder's upsert (insert_track_to_db) is not
insert-if-absent.  Inserting a row for track id t1 and then a second row with
the same id but energy 9/10 leaves the stored energy at 9/10: the first
insert's value 1/2 is overwritten, contradicting the claim that the system
never overwrites a previously resolved vector. -/
theorem builder_upsert_overwrites :
    (get_track
        (insert_track_to_db
          (insert_track_to_db []
            { id := 1, spotify_track_id := "t1", artist_name := "A",
              track_name := "s", tempo_bpm := 100, key_musical := 0,
              beat_regularity := 0, brightness_hz := 0, treble_hz := 0,
              fullness_hz := 0, dynamic_range := 0, percussiveness := 0,
              loudness := 0, warmth := 0, punch := 0, texture := 0,
              energy := 1, danceability := 0, mood_positive := 0,
              acousticness := 0, instrumental := 0, popularity := 5,
              spotify_uri := "u", youtube_match := "m" }).1
          { id := 2, spotify_track_id := "t1", artist_name := "A2",
            track_name := "s2", tempo_bpm := 100, key_musical := 0,
            beat_regularity := 0, brightness_hz := 0, treble_hz := 0,
            fullness_hz := 0, dynamic_range := 0, percussiveness := 0,
            loudness := 0, warmth := 0, punch := 0, texture := 0,
            energy := 2, danceability := 0, mood_positive := 0,
            acousticness := 0, instrumental := 0, popularity := 5,
            spotify_uri := "u", youtube_match := "m" }).1 "t1").map
      AudioFeaturesRow.energy = some 2 := by
  decide

/-- The Spotify track payload consumed by process_track_for_db (sp.track). -/
structure TrackMeta where
  id : String
  name : String
  artist_names : List String
  uri : String
  popularity : Int
  deriving Repr, DecidableEq

/-- The track_info dict returned by process_track_for_db. -/
structure TrackInfo where
  track_id : String
  artist_name : String
  track_name : String
  spotify_uri : String
  popularity : Int
  youtube_title : String
  deriving Repr, DecidableEq

/-- Outcome of the YouTube search plus download-and-analyze oracle invoked by
process_track_for_db, covering its distinct control-flow cases: the
distinguished rate-limit exception, no search match, failed analysis (either a
falsy result or a non-rate-limit exception, both of which the function folds
into the same failure), and success. -/
inductive OracleOutcome where
  | rateLimited
  | noMatch
  | analysisFailed
  | extracted (features : Features) (video_title : String)
  deriving Repr, DecidableEq

/-- The exceptions that can cross function boundaries in the embedded code:
YouTubeRateLimitError, or any other exception. -/
inductive PyError where
  | youTubeRateLimit
  | otherError (msg : String)
  deriving Repr, DecidableEq

/-- Shallow embedding of process_track_for_db (audio_utils.py): search
YouTube, download and analyze, and return (track_info, features).  Its
except-clauses re-raise YouTubeRateLimitError unmodified and turn every other
failure into the (None, None) result, modelled as Except.error respectively
Except.ok none. -/
def process_track_for_db (track : TrackMeta) (oracle : OracleOutcome) :
    Except PyError (Option (TrackInfo × Features)) :=
  match oracle with
  | .rateLimited => .error .youTubeRateLimit
  | .noMatch => .ok none
  | .analysisFailed => .ok none
  | .extracted features video_title =>
    .ok (some
      ({ track_id := track.id
         artist_name := String.intercalate ", " track.artist_names
         track_name := track.name
         spotify_uri := track.uri
         popularity := track.popularity
         youtube_title := video_title }, features))

/-- The row prepared from a track_info dict and a features dict by the INSERT
parameters of add_track_to_audio_features_db (rounding to six decimals is a
no-op at the granularity of this model's exact rationals). -/
def prepared_row (next_id : Nat) (info : TrackInfo) (f : Features) :
    AudioFeaturesRow where
  id := next_id
  spotify_track_id := info.track_id
  artist_name := info.artist_name
  track_name := info.track_name
  tempo_bpm := f.tempo
  key_musical := f.key_estimate
  beat_regularity := f.beat_strength
  brightness_hz := f.spectral_centroid
  treble_hz := f.spectral_rolloff
  fullness_hz := f.spectral_bandwidth
  dynamic_range := f.spectral_contrast
  percussiveness := f.zero_crossing_rate
  loudness := f.rms_energy
  warmth := f.harmonic_mean
  punch := f.percussive_mean
  texture := f.mfcc_mean
  energy := f.energy
  danceability := f.danceability
  mood_positive := f.valence
  acousticness := f.acousticness
  instrumental := f.instrumentalness
  popularity := info.popularity
  spotify_uri := info.spotify_uri
  youtube_match := info.youtube_title

/-- Shallow embedding of ensure_track_in_db (lite_script.py): return True if
the track is already stored; otherwise call process_track_for_db and store the
result.  Its except-clause for YouTubeRateLimitError prints an error and
returns False, so the rate-limit condition is absorbed into the same False
("could not process") outcome as an unresolvable track; only the pair
(updated table, returned bool) is observable to the caller. -/
def ensure_track_in_db (audio_features_available : Bool)
    (db : List AudioFeaturesRow) (track : TrackMeta) (oracle : OracleOutcome) :
    List AudioFeaturesRow × Bool :=
  if !audio_features_available then
    (db, false)
  else if db.any fun r => r.spotify_track_id == track.id then
    (db, true)
  else
    match process_track_for_db track oracle with
    | .error .youTubeRateLimit => (db, false)
    | .error (.otherError _) => (db, false)
    | .ok none => (db, false)
    | .ok (some (info, features)) =>
      let inserted := add_track_to_audio_features_db db
        (prepared_row db.length info features)
      (inserted.1, inserted.2.isSome)

/-- C4 (amended): the RateLimited condition raised by the extraction oracle
propagates unmodified out of process_track_for_db to its caller, but that
caller, ensure_track_in_db, catches it and returns False: the same
could-not-process outcome it returns for a permanently unresolvable track, so
the condition never reaches the run orchestrator. -/
theorem rate_limit_propagation_and_swallow (db : List AudioFeaturesRow)
    (track : TrackMeta)
    (habsent : (db.any fun r => r.spotify_track_id == track.id) = false) :
    process_track_for_db track .rateLimited = .error .youTubeRateLimit ∧
    ensure_track_in_db true db track .rateLimited = (db, false) ∧
    ensure_track_in_db true db track .rateLimited =
      ensure_track_in_db true db track .noMatch := by
  refine ⟨rfl, ?_, ?_⟩ <;>
    simp [ensure_track_in_db, process_track_for_db, habsent]

/-- C4 witness: the propagation-then-swallow behaviour evaluated on an empty
table and a concrete track. -/
theorem rate_limit_propagation_and_swallow_witness :
    (([] : List AudioFeaturesRow).any fun r => r.spotify_track_id == "t9")
        = false ∧
    ensure_track_in_db true []
        { id := "t9", name := "song", artist_names := ["A"], uri := "u",
          popularity := 3 } .rateLimited = ([], false) :=
  ⟨by decide,
    (rate_limit_propagation_and_swallow []
      { id := "t9", name := "song", artist_names := ["A"], uri := "u",
        popularity := 3 } (by decide)).2.1⟩

/-- C4 counterexample: resolving a rate-limited track through
ensure_track_in_db returns exactly the could-not-process outcome (False) and
is indistinguishable from resolving a track with no media match, contradicting
the claim that the RateLimited condition propagates unmodified to the caller
of the resolve operation and is never converted into a failure result. -/
theorem rate_limit_swallowed_as_failure :
    ensure_track_in_db true []
        { id := "t0", name := "song", artist_names := ["A"], uri := "u",
          popularity := 3 } .rateLimited = ([], false) ∧
    ensure_track_in_db true []
        { id := "t0", name := "song", artist_names := ["A"], uri := "u",
          popularity := 3 } .rateLimited =
      ensure_track_in_db true []
        { id := "t0", name := "song", artist_names := ["A"], uri := "u",
          popularity := 3 } .noMatch := by
  constructor <;> rfl

/-- An artist object embedded in a Spotify track payload.  The id is
artist.get("id") and may be missing; followers is the nested
followers.total value, which track payloads do not carry (artist.get
("followers", {}).get("total", 0) then defaults it to 0). -/
structure ArtistObj where
  id : Option String
  name : String
  followers : Option Nat
  deriving Repr, DecidableEq

/-- A Spotify track payload as used by the validation code: candidate tracks
fetched with sp.track.  Only the keys the embedded code reads are modelled. -/
structure SpotifyTrack where
  id : String
  name : String
  artists : List ArtistObj
  uri : String
  spotify_url : String
  deriving Repr, DecidableEq

/-- Names for the checks of validate_track_lite, in source order. -/
inductive LiteCheck where
  | follower_ceiling
  | liked_artist
  | existing_artist
  deriving Repr, DecidableEq

/-- Shallow embedding of validate_track_lite, instrumented with the list of
checks its sequential if-statements actually evaluate before returning: the
function checks the follower ceiling first (when a limit is configured),
then membership of the first artist's id in the liked-songs artist set, then
membership in the existing-playlist artist set, returning False at the first
failing check. -/
def validate_track_lite (track : Option SpotifyTrack)
    (existing_artist_ids : List String) (liked_songs_artist_ids : List String)
    (max_follower_count : Option Nat) : Bool × List LiteCheck :=
  match track with
  | none => (false, [])
  | some t =>
    match t.artists with
    | [] => (false, [])
    | artist :: _ =>
      let aid := artist.id
      let trace₁ : List LiteCheck :=
        match max_follower_count with
        | some _ => [.follower_ceiling]
        | none => []
      if max_follower_count.any fun m => artist.followers.getD 0 > m then
        (false, trace₁)
      else
        let trace₂ := trace₁ ++ [.liked_artist]
        if !liked_songs_artist_ids.isEmpty &&
            (match aid with
             | some a => liked_songs_artist_ids.contains a
             | none => false) then
          (false, trace₂)
        else
          let trace₃ := trace₂ ++ [.existing_artist]
          if !existing_artist_ids.isEmpty &&
              (match aid with
               | some a => existing_artist_ids.contains a
               | none => false) then
            (false, trace₃)
          else
            (true, trace₃)

/-- Names for the inline validation checks of the candidate loop of
run_enhanced_recommendation_script, in source order. -/
inductive EnhCheck where
  | self_artist
  | liked_artist
  | playlist_artist
  | follower_ceiling
  | genre_match
  deriving Repr, DecidableEq

/-- Evaluation of a sequence of checks with short-circuit on first failure,
instrumented with the checks evaluated: the semantics shared by a python
for-body made of successive "if failed: continue" statements.  The Bool of
each pair is the check's outcome; the returned trace lists the checks reached
in order. -/
def run_checks : List (EnhCheck × Bool) → Bool × List EnhCheck
  | [] => (true, [])
  | (c, passed) :: rest =>
    if passed then
      let r := run_checks rest
      (r.1, c :: r.2)
    else
      (false, [c])

/-- Declarative description of a short-circuiting chain: everything up to and
including the first failing check is evaluated, nothing after it. -/
def chain_result (l : List (EnhCheck × Bool)) : Bool × List EnhCheck :=
  match l.findIdx? fun p => !p.2 with
  | some i => (false, (l.map Prod.fst).take (i + 1))
  | none => (true, l.map Prod.fst)

theorem run_checks_eq_chain_result (l : List (EnhCheck × Bool)) :
    run_checks l = chain_result l := by
  induction l with
  | nil => rfl
  | cons p rest ih =>
    obtain ⟨c, passed⟩ := p
    cases passed with
    | false => simp [run_checks, chain_result, List.findIdx?_cons]
    | true =>
      simp only [run_checks, if_pos, ih, chain_result, List.findIdx?_cons,
        Bool.not_true, List.map_cons]
      cases hfind : List.findIdx? (fun p => !p.2) rest with
      | none => simp [hfind]
      | some i => simp [hfind, List.take_succ_cons]

/-- The genre normalization of normalize_genre: lowercase, strip, and a fixed
table of common genre aliases. -/
def normalize_genre (g : String) : String :=
  let g := g.toLower.trim
  if g = "hip hop" then "hip-hop"
  else if g = "r&b" then "rnb"
  else if g = "rhythm and blues" then "rnb"
  else if g = "electronic dance music" then "edm"
  else if g = "drum and bass" then "drum-n-bass"
  else if g = "pop rock" then "pop-rock"
  else if g = "indie rock" then "indie-rock"
  else if g = "alternative rock" then "alt-rock"
  else if g = "hard rock" then "hard-rock"
  else if g = "heavy metal" then "metal"
  else if g = "death metal" then "metal"
  else if g = "black metal" then "metal"
  else g

/-- Shallow embedding of check_genre_match: with genre data missing on either
side the check is skipped (treated as a pass); otherwise the normalized genre
sets must intersect. -/
def check_genre_match (seed_genres candidate_genres : List String) :
    Bool × List String :=
  if seed_genres.isEmpty || candidate_genres.isEmpty then
    (true, [])
  else
    let seed_set := (seed_genres.map normalize_genre).dedup
    let candidate_set := (candidate_genres.map normalize_genre).dedup
    let shared := seed_set.filter candidate_set.contains
    if !shared.isEmpty then (true, shared) else (false, [])

/-- The policy switches of the enhanced candidate validation. -/
structure EnhPolicy where
  liked_songs_mode : Bool
  max_follower_count : Option Nat
  enable_genre_matching : Bool
  deriving Repr, DecidableEq

/-- The artist ids of a candidate track as the enhanced loop collects them
(the set comprehension over candidate_track's artists). -/
def candidate_artist_ids (t : SpotifyTrack) : List String :=
  t.artists.filterMap fun a => a.id

/-- The inline validation checks of the candidate loop of
run_enhanced_recommendation_script, assembled in source order with their
outcomes: self-artist and liked-artist apply in liked_songs mode only, the
follower ceiling only when configured (and passes when the artist profile
fetch fails), the genre check only when enabled.  The external artist-profile
and genre lookups are oracle parameters. -/
def enhanced_check_list (pol : EnhPolicy) (winner_aid : String)
    (liked_songs_artist_ids seen_artist_ids : List String)
    (seed_genres : List String) (artist_followers : String → Option Nat)
    (artist_genres : String → List String) (t : SpotifyTrack) :
    List (EnhCheck × Bool) :=
  let cand_ids := candidate_artist_ids t
  let main_artist := t.artists.headD { id := none, name := "", followers := none }
  (if pol.liked_songs_mode then
    [(.self_artist, !cand_ids.contains winner_aid)]
  else []) ++
  (if pol.liked_songs_mode then
    [(.liked_artist, !cand_ids.any liked_songs_artist_ids.contains)]
  else []) ++
  [(.playlist_artist, !cand_ids.any seen_artist_ids.contains)] ++
  (match pol.max_follower_count with
   | some m =>
     [(.follower_ceiling,
       match main_artist.id.bind artist_followers with
       | some fc => !(fc > m)
       | none => true)]
   | none => []) ++
  (if pol.enable_genre_matching then
    [(.genre_match,
      (check_genre_match seed_genres (artist_genres main_artist.name)).1)]
  else [])

/-- Validation of one enhanced-loop candidate: the short-circuit evaluation of
its check list, with the evaluated checks as trace. -/
def enhanced_validate (pol : EnhPolicy) (winner_aid : String)
    (liked_songs_artist_ids seen_artist_ids : List String)
    (seed_genres : List String) (artist_followers : String → Option Nat)
    (artist_genres : String → List String) (t : SpotifyTrack) :
    Bool × List EnhCheck :=
  run_checks (enhanced_check_list pol winner_aid liked_songs_artist_ids
    seen_artist_ids seed_genres artist_followers artist_genres t)

/-- C5 (amended): in the candidate loop of run_enhanced_recommendation_script
(liked_songs mode, follower ceiling configured, genre matching enabled) the
checks are assembled exactly in the order self-artist, liked-artist,
playlist-duplication, follower ceiling, genre compatibility, and their
evaluation short-circuits: everything up to and including the first failing
check is evaluated and nothing after it.  (The claim as frozen also covered
validate_track_lite, which applies its checks in a different order: follower
ceiling first; see the counterexample.) -/
theorem enhanced_validation_order_short_circuit (m : Nat) (winner_aid : String)
    (liked_songs_artist_ids seen_artist_ids seed_genres : List String)
    (artist_followers : String → Option Nat)
    (artist_genres : String → List String) (t : SpotifyTrack) :
    ((enhanced_check_list
        { liked_songs_mode := true, max_follower_count := some m,
          enable_genre_matching := true }
        winner_aid liked_songs_artist_ids seen_artist_ids seed_genres
        artist_followers artist_genres t).map Prod.fst
      = [.self_artist, .liked_artist, .playlist_artist, .follower_ceiling,
         .genre_match]) ∧
    enhanced_validate
        { liked_songs_mode := true, max_follower_count := some m,
          enable_genre_matching := true }
        winner_aid liked_songs_artist_ids seen_artist_ids seed_genres
        artist_followers artist_genres t
      = chain_result (enhanced_check_list
          { liked_songs_mode := true, max_follower_count := some m,
            enable_genre_matching := true }
          winner_aid liked_songs_artist_ids seen_artist_ids seed_genres
          artist_followers artist_genres t) := by
  constructor
  · simp [enhanced_check_list]
  · exact run_checks_eq_chain_result _

/-- C5 counterexample: a candidate whose artist is in the liked-songs artist
set (so under the claimed order it fails the liked-artist check, check 2, and
must never be evaluated against the follower ceiling, check 4) is in fact
rejected by validate_track_lite with only the follower-ceiling check
evaluated: that function applies the follower ceiling first, so the claimed
check order does not hold for it. -/
theorem validate_track_lite_order_counterexample :
    validate_track_lite
        (some { id := "c1", name := "cand",
                artists := [{ id := some "a1", name := "A",
                              followers := some 200000 }],
                uri := "u", spotify_url := "s" })
        [] ["a1"] (some 100000)
      = (false, [LiteCheck.follower_ceiling]) ∧
    ["a1"].contains "a1" = true := by
  decide

/-- C10: when validating with a configured follower ceiling, the follower
count is read from the candidate track's embedded first artist object and
defaults to 0 when absent, so for a track payload carrying no followers field
the follower-ceiling check is evaluated but passes for every ceiling, and the
validation outcome is exactly the outcome with no ceiling configured (the
function consults no artist-profile oracle: its inputs contain none). -/
theorem follower_check_defaults_to_zero (t : SpotifyTrack)
    (artist : ArtistObj) (rest : List ArtistObj)
    (existing_artist_ids liked_songs_artist_ids : List String) (m : Nat)
    (hartists : t.artists = artist :: rest)
    (hfollowers : artist.followers = none) :
    LiteCheck.follower_ceiling ∈
      (validate_track_lite (some t) existing_artist_ids
        liked_songs_artist_ids (some m)).2 ∧
    validate_track_lite (some t) existing_artist_ids
        liked_songs_artist_ids (some m)
      = ((validate_track_lite (some t) existing_artist_ids
            liked_songs_artist_ids none).1,
         LiteCheck.follower_ceiling ::
           (validate_track_lite (some t) existing_artist_ids
             liked_songs_artist_ids none).2) := by
  constructor
  · simp only [validate_track_lite, hartists, hfollowers]
    simp only [Option.any, Option.getD, decide_eq_true_eq]
    norm_num
    split
    · simp
    · split <;> simp
  · simp only [validate_track_lite, hartists, hfollowers]
    simp only [Option.any, Option.getD, decide_eq_true_eq]
    norm_num
    split
    · simp
    · split <;> simp

/-- C10 witness: a concrete candidate track with no followers field passes
the follower-ceiling check for the concrete ceiling 100. -/
theorem follower_check_defaults_to_zero_witness :
    ({ id := "c1", name := "cand",
       artists := [{ id := some "a9", name := "A", followers := none }],
       uri := "u", spotify_url := "s" } : SpotifyTrack).artists
      = [{ id := some "a9", name := "A", followers := none }] ∧
    (({ id := some "a9", name := "A", followers := none } : ArtistObj).followers
      = none) ∧
    LiteCheck.follower_ceiling ∈
      (validate_track_lite
        (some { id := "c1", name := "cand",
                artists := [{ id := some "a9", name := "A", followers := none }],
                uri := "u", spotify_url := "s" })
        [] [] (some 100)).2 :=
  ⟨rfl, rfl,
    (follower_check_defaults_to_zero _ _ _ _ _ 100 rfl rfl).1⟩

/-- The liked-count-derived base weight assigned by
build_artist_list_from_liked_songs (the if/elif ladder over total_liked). -/
def base_weight (total_liked : Nat) : ℚ :=
  if total_liked ≥ 10 then 10
  else if total_liked ≥ 5 then 7
  else if total_liked ≥ 3 then 5
  else if total_liked = 2 then 3
  else 1

/-- The recent-listening boost: min(1 + play_count / 10, 3.0). -/
def recent_boost (play_count : Nat) : ℚ :=
  min (1 + (play_count : ℚ) / 10) 3

/-- The weight stored for an artist: the base weight, multiplied by the boost
when the artist appears in the listening-activity play map. -/
def artist_weight (total_liked : Nat) (play_count : Option Nat) : ℚ :=
  match play_count with
  | some pc => base_weight total_liked * recent_boost pc
  | none => base_weight total_liked

/-- State of the lottery loop of run_lite_script, instrumented with the
sequence of drawn artist ids and, for each draw, the (artist, weight) pairs
passed to random.choices for that draw. -/
structure LiteLoopState where
  selected_tracks : List SpotifyTrack
  rolled_artist_ids : List String
  draws : List String
  weight_snapshots : List (List (String × ℚ))
  deriving Repr, DecidableEq

/-- Shallow embedding of the while-loop of run_lite_script: the fuel argument
is the remaining attempts out of max_attempts = max_songs * 10 (the python
loop condition attempts < max_attempts), choose is the random.choices oracle
(a weighted draw from a non-empty list), and finder stands for
select_track_for_artist_lite.  Each iteration recomputes the available
artists (never-rolled ones) with their original weights
(artist_weights[artist_ids.index(aid)]), draws one, retires it permanently,
and appends the found track on success. -/
def run_lite_loop (choose : List (String × ℚ) → String × ℚ)
    (finder : String → Option SpotifyTrack) (artist_ids : List String)
    (weight_of : String → ℚ) (max_songs : Nat) :
    Nat → LiteLoopState → LiteLoopState
  | 0, s => s
  | fuel + 1, s =>
    if s.selected_tracks.length ≥ max_songs then s
    else
      let available := artist_ids.filter fun a => !s.rolled_artist_ids.contains a
      if available.isEmpty then s
      else
        let available_weights := available.map fun a => (a, weight_of a)
        let selected_aid := (choose available_weights).1
        let s' : LiteLoopState :=
          { s with
            rolled_artist_ids := selected_aid :: s.rolled_artist_ids
            draws := s.draws ++ [selected_aid]
            weight_snapshots := s.weight_snapshots ++ [available_weights] }
        match finder selected_aid with
        | some track =>
          run_lite_loop choose finder artist_ids weight_of max_songs fuel
            { s' with selected_tracks := s'.selected_tracks ++ [track] }
        | none =>
          run_lite_loop choose finder artist_ids weight_of max_songs fuel s'

/-- The initial state of the lottery loop. -/
def lite_loop_start : LiteLoopState where
  selected_tracks := []
  rolled_artist_ids := []
  draws := []
  weight_snapshots := []

/-- Shallow embedding of the winner-drawing loop of
run_enhanced_recommendation_script (for i in range(num_winners * 3)): the fuel
is the remaining range, each iteration stops when enough winners are
collected or no artist is left, otherwise draws from the never-rolled
artists with their original weights and retires the drawn artist.  Returns
(winner ids, rolled ids). -/
def draw_lottery_winners (choose : List (String × ℚ) → String × ℚ)
    (artist_ids : List String) (weight_of : String → ℚ) (num_winners : Nat) :
    Nat → List String → List String → List String × List String
  | 0, rolled, winners => (winners, rolled)
  | fuel + 1, rolled, winners =>
    if winners.length ≥ num_winners then (winners, rolled)
    else
      let available := artist_ids.filter fun a => !rolled.contains a
      if available.isEmpty then (winners, rolled)
      else
        let available_weights := available.map fun a => (a, weight_of a)
        let selected_aid := (choose available_weights).1
        draw_lottery_winners choose artist_ids weight_of num_winners fuel
          (selected_aid :: rolled) (winners ++ [selected_aid])

/-- Invariant of the lite lottery loop: the draw log never repeats an artist,
only contains pool members, every drawn artist is retired, every snapshot
carries the original weights, an artist drawn at some step appears in no
later snapshot, and draws and snapshots are aligned. -/
def lite_loop_props (artist_ids : List String) (weight_of : String → ℚ)
    (t : LiteLoopState) : Prop :=
  t.draws.Nodup ∧
  (∀ a ∈ t.draws, a ∈ artist_ids) ∧
  (∀ a ∈ t.draws, a ∈ t.rolled_artist_ids) ∧
  (∀ snap ∈ t.weight_snapshots, ∀ p ∈ snap, p.2 = weight_of p.1) ∧
  List.Pairwise
    (fun (e₁ e₂ : String × List (String × ℚ)) => ∀ w, (e₁.1, w) ∉ e₂.2)
    (t.draws.zip t.weight_snapshots) ∧
  t.draws.length = t.weight_snapshots.length

/-- The lite lottery loop preserves lite_loop_props whenever the choose oracle
always picks a member of the offered list. -/
theorem lite_loop_step_invariant (choose : List (String × ℚ) → String × ℚ)
    (finder : String → Option SpotifyTrack) (artist_ids : List String)
    (weight_of : String → ℚ) (max_songs fuel : Nat) (s : LiteLoopState)
    (hchoose : ∀ l, l ≠ [] → choose l ∈ l)
    (h : lite_loop_props artist_ids weight_of s) :
    lite_loop_props artist_ids weight_of
      (run_lite_loop choose finder artist_ids weight_of max_songs fuel s) := by
  induction fuel generalizing s with
  | zero => exact h
  | succ fuel ih =>
    obtain ⟨hnodup, hpool, hrolled, hweights, hzip, hlen⟩ := h
    rw [run_lite_loop]
    by_cases hdone : s.selected_tracks.length ≥ max_songs
    · rw [if_pos hdone]
      exact ⟨hnodup, hpool, hrolled, hweights, hzip, hlen⟩
    · rw [if_neg hdone]
      by_cases hempty :
          (artist_ids.filter fun a => !s.rolled_artist_ids.contains a).isEmpty
      · rw [if_pos hempty]
        exact ⟨hnodup, hpool, hrolled, hweights, hzip, hlen⟩
      · rw [if_neg hempty]
        dsimp only
        set available := artist_ids.filter fun a => !s.rolled_artist_ids.contains a
          with havail
        set avw := available.map fun a => (a, weight_of a) with havw
        set aid := (choose avw).1 with haid
        have havw_ne : avw ≠ [] := by
          intro hne
          rw [havw] at hne
          rcases List.map_eq_nil_iff.mp hne with h'
          rw [h'] at hempty
          simp at hempty
        have hmem := hchoose avw havw_ne
        have haid_avail : aid ∈ available := by
          rcases List.mem_map.mp (havw ▸ hmem) with ⟨a, ha, hpair⟩
          rw [haid, ← hpair]
          exact ha
        have haid_pool : aid ∈ artist_ids := List.mem_of_mem_filter haid_avail
        have haid_fresh : aid ∉ s.rolled_artist_ids := by
          have hf := List.of_mem_filter haid_avail
          simpa using hf
        have haid_not_drawn : aid ∉ s.draws := fun hmem' =>
          haid_fresh (hrolled aid hmem')
        have hnodup' : (s.draws ++ [aid]).Nodup := by
          rw [List.nodup_append]
          exact ⟨hnodup, List.nodup_singleton aid, by
            intro a ha hb
            simp only [List.mem_singleton] at hb
            exact haid_not_drawn (hb ▸ ha)⟩
        have hpool' : ∀ a ∈ s.draws ++ [aid], a ∈ artist_ids := by
          intro a ha
          rcases List.mem_append.mp ha with hcase | hcase
          · exact hpool a hcase
          · simp only [List.mem_singleton] at hcase
            exact hcase ▸ haid_pool
        have hrolled' : ∀ a ∈ s.draws ++ [aid], a ∈ aid :: s.rolled_artist_ids := by
          intro a ha
          rcases List.mem_append.mp ha with hcase | hcase
          · exact List.mem_cons_of_mem _ (hrolled a hcase)
          · simp only [List.mem_singleton] at hcase
            exact hcase ▸ List.mem_cons_self _ _
        have hweights' : ∀ snap ∈ s.weight_snapshots ++ [avw],
            ∀ p ∈ snap, p.2 = weight_of p.1 := by
          intro snap hsnap p hp
          rcases List.mem_append.mp hsnap with hcase | hcase
          · exact hweights snap hcase p hp
          · simp only [List.mem_singleton] at hcase
            subst hcase
            rcases List.mem_map.mp (havw ▸ hp) with ⟨a, _, hpair⟩
            rw [← hpair]
        have hzip' : List.Pairwise
            (fun (e₁ e₂ : String × List (String × ℚ)) => ∀ w, (e₁.1, w) ∉ e₂.2)
            ((s.draws ++ [aid]).zip (s.weight_snapshots ++ [avw])) := by
          rw [List.zip_append hlen]
          rw [List.pairwise_append]
          refine ⟨hzip, List.pairwise_singleton _ _, ?_⟩
          intro e₁ he₁ e₂ he₂ w hw
          simp only [List.zip_cons_cons, List.zip_nil_right, List.mem_singleton]
            at he₂
          subst he₂
          have he₁d : e₁.1 ∈ s.draws := (List.of_mem_zip he₁).1
          have he₁r : e₁.1 ∈ s.rolled_artist_ids := hrolled _ he₁d
          rcases List.mem_map.mp (havw ▸ hw) with ⟨a, ha, hpair⟩
          have haeq : a = e₁.1 := congrArg Prod.fst hpair
          subst haeq
          rw [havail] at ha
          have hnotr : e₁.1 ∉ s.rolled_artist_ids := by
            simpa using List.of_mem_filter ha
          exact hnotr he₁r
        have hlen' : (s.draws ++ [aid]).length
            = (s.weight_snapshots ++ [avw]).length := by
          simp [hlen]
        cases hfind : finder aid with
        | some track =>
          exact ih _ ⟨hnodup', hpool', hrolled', hweights', hzip', hlen'⟩
        | none =>
          exact ih _ ⟨hnodup', hpool', hrolled', hweights', hzip', hlen'⟩

/-- The winner-drawing loop of the enhanced script preserves the no-repeat
invariant: winners are distinct pool members and all retired. -/
theorem draw_lottery_winners_invariant
    (choose : List (String × ℚ) → String × ℚ) (artist_ids : List String)
    (weight_of : String → ℚ) (num_winners fuel : Nat)
    (rolled winners : List String)
    (hchoose : ∀ l, l ≠ [] → choose l ∈ l)
    (hnodup : winners.Nodup)
    (hpool : ∀ a ∈ winners, a ∈ artist_ids)
    (hrolled : ∀ a ∈ winners, a ∈ rolled) :
    (draw_lottery_winners choose artist_ids weight_of num_winners fuel
        rolled winners).1.Nodup ∧
    (∀ a ∈ (draw_lottery_winners choose artist_ids weight_of num_winners fuel
        rolled winners).1, a ∈ artist_ids) := by
  induction fuel generalizing rolled winners with
  | zero => exact ⟨hnodup, hpool⟩
  | succ fuel ih =>
    rw [draw_lottery_winners]
    by_cases hdone : winners.length ≥ num_winners
    · rw [if_pos hdone]
      exact ⟨hnodup, hpool⟩
    · rw [if_neg hdone]
      by_cases hempty : (artist_ids.filter fun a => !rolled.contains a).isEmpty
      · rw [if_pos hempty]
        exact ⟨hnodup, hpool⟩
      · rw [if_neg hempty]
        dsimp only
        set available := artist_ids.filter fun a => !rolled.contains a
          with havail
        set avw := available.map fun a => (a, weight_of a) with havw
        set aid := (choose avw).1 with haid
        have havw_ne : avw ≠ [] := by
          intro hne
          rw [havw] at hne
          rcases List.map_eq_nil_iff.mp hne with h'
          rw [h'] at hempty
          simp at hempty
        have hmem := hchoose avw havw_ne
        have haid_avail : aid ∈ available := by
          rcases List.mem_map.mp (havw ▸ hmem) with ⟨a, ha, hpair⟩
          rw [haid, ← hpair]
          exact ha
        have haid_pool : aid ∈ artist_ids := List.mem_of_mem_filter haid_avail
        have haid_fresh : aid ∉ rolled := by
          have hf := List.of_mem_filter haid_avail
          simpa using hf
        have haid_not_won : aid ∉ winners := fun hmem' =>
          haid_fresh (hrolled aid hmem')
        refine ih _ _ ?_ ?_ ?_
        · rw [List.nodup_append]
          exact ⟨hnodup, List.nodup_singleton aid, by
            intro a ha hb
            simp only [List.mem_singleton] at hb
            exact haid_not_won (hb ▸ ha)⟩
        · intro a ha
          rcases List.mem_append.mp ha with hcase | hcase
          · exact hpool a hcase
          · simp only [List.mem_singleton] at hcase
            exact hcase ▸ haid_pool
        · intro a ha
          rcases List.mem_append.mp ha with hcase | hcase
          · exact List.mem_cons_of_mem _ (hrolled a hcase)
          · simp only [List.mem_singleton] at hcase
            exact hcase ▸ List.mem_cons_self _ _

/-- C6: whatever the attempt budget (fuel), both lottery loops retire each
drawn artist permanently, so for a pool of N artists the draw logs never
repeat an artist and hold at most N draws, regardless of whether any draw
yields an accepted track; in particular the loops terminate after at most N
draws once the pool is exhausted. -/
theorem lottery_at_most_pool_draws (choose : List (String × ℚ) → String × ℚ)
    (finder : String → Option SpotifyTrack) (artist_ids : List String)
    (weight_of : String → ℚ) (max_songs fuel num_winners fuel₂ : Nat)
    (hchoose : ∀ l, l ≠ [] → choose l ∈ l) :
    (run_lite_loop choose finder artist_ids weight_of max_songs fuel
        lite_loop_start).draws.Nodup ∧
    (∀ a ∈ (run_lite_loop choose finder artist_ids weight_of max_songs fuel
        lite_loop_start).draws, a ∈ artist_ids) ∧
    (run_lite_loop choose finder artist_ids weight_of max_songs fuel
        lite_loop_start).draws.length ≤ artist_ids.length ∧
    (draw_lottery_winners choose artist_ids weight_of num_winners fuel₂
        [] []).1.Nodup ∧
    (draw_lottery_winners choose artist_ids weight_of num_winners fuel₂
        [] []).1.length ≤ artist_ids.length := by
  have hlite := lite_loop_step_invariant choose finder artist_ids weight_of
    max_songs fuel lite_loop_start hchoose
    ⟨List.nodup_nil, by simp [lite_loop_start], by simp [lite_loop_start],
     by simp [lite_loop_start], by simp [lite_loop_start], rfl⟩
  obtain ⟨hnodup, hpool, _, _, _, _⟩ := hlite
  have hwin := draw_lottery_winners_invariant choose artist_ids weight_of
    num_winners fuel₂ [] [] hchoose List.nodup_nil (by simp) (by simp)
  refine ⟨hnodup, hpool, ?_, hwin.1, ?_⟩
  · exact (List.subperm_of_subset hnodup fun a ha => hpool a ha).length_le
  · exact (List.subperm_of_subset hwin.1 fun a ha => hwin.2 a ha).length_le

/-- C6 witness: the draw-count bound evaluated for a two-artist pool, a
head-picking choose oracle and a finder that never succeeds. -/
theorem lottery_at_most_pool_draws_witness :
    (∀ l : List (String × ℚ), l ≠ [] → l.headD ("", 0) ∈ l) ∧
    (run_lite_loop (fun l => l.headD ("", 0)) (fun _ => none) ["a", "b"]
        (fun x => if x = "a" then 10 else 4) 5 50
        lite_loop_start).draws.length ≤ (["a", "b"] : List String).length := by
  have hchoose : ∀ l : List (String × ℚ), l ≠ [] → l.headD ("", 0) ∈ l := by
    intro l hl
    cases l with
    | nil => exact absurd rfl hl
    | cons x xs => simp
  exact ⟨hchoose,
    (lottery_at_most_pool_draws (fun l => l.headD ("", 0)) (fun _ => none)
      ["a", "b"] (fun x => if x = "a" then 10 else 4) 5 50 1 3
      hchoose).2.2.1⟩

/-- C7 (amended): an artist's lottery weight starts from the liked-count base
of build_artist_list_from_liked_songs (10, 7, 5, 3 or 1 by total liked
songs), is multiplied by a recent-listening boost capped at 3x when listening
data exists, and is never modified afterwards: every weight passed to a draw
is the originally assigned one, and a drawn artist, far from remaining with a
halved weight after a failed draw, never reappears in any later draw's
candidate weights (permanent retirement). -/
theorem lottery_weight_base_boost_retire
    (choose : List (String × ℚ) → String × ℚ)
    (finder : String → Option SpotifyTrack) (artist_ids : List String)
    (weight_of : String → ℚ) (max_songs fuel : Nat) (n pc : Nat)
    (hchoose : ∀ l, l ≠ [] → choose l ∈ l) :
    (n ≥ 10 → base_weight n = 10) ∧
    (n ≥ 5 → n < 10 → base_weight n = 7) ∧
    (n ≥ 3 → n < 5 → base_weight n = 5) ∧
    base_weight 2 = 3 ∧
    (n < 2 → base_weight n = 1) ∧
    recent_boost pc ≤ 3 ∧
    artist_weight n (some pc) = base_weight n * recent_boost pc ∧
    artist_weight n none = base_weight n ∧
    (∀ snap ∈ (run_lite_loop choose finder artist_ids weight_of max_songs fuel
        lite_loop_start).weight_snapshots, ∀ p ∈ snap, p.2 = weight_of p.1) ∧
    List.Pairwise
      (fun (e₁ e₂ : String × List (String × ℚ)) => ∀ w, (e₁.1, w) ∉ e₂.2)
      ((run_lite_loop choose finder artist_ids weight_of max_songs fuel
          lite_loop_start).draws.zip
        (run_lite_loop choose finder artist_ids weight_of max_songs fuel
          lite_loop_start).weight_snapshots) := by
  have hlite := lite_loop_step_invariant choose finder artist_ids weight_of
    max_songs fuel lite_loop_start hchoose
    ⟨List.nodup_nil, by simp [lite_loop_start], by simp [lite_loop_start],
     by simp [lite_loop_start], by simp [lite_loop_start], rfl⟩
  obtain ⟨_, _, _, hweights, hzip, _⟩ := hlite
  refine ⟨?_, ?_, ?_, ?_, ?_, ?_, rfl, rfl, hweights, hzip⟩
  · intro hn; simp [base_weight, hn]
  · intro h5 h10
    have : ¬ n ≥ 10 := by omega
    simp [base_weight, this, h5]
  · intro h3 h5
    have h10 : ¬ n ≥ 10 := by omega
    have h5' : ¬ n ≥ 5 := by omega
    simp [base_weight, h10, h5', h3]
  · simp [base_weight]
  · intro h2
    have h10 : ¬ n ≥ 10 := by omega
    have h5 : ¬ n ≥ 5 := by omega
    have h3 : ¬ n ≥ 3 := by omega
    have h2' : ¬ n = 2 := by omega
    simp [base_weight, h10, h5, h3, h2']
  · exact min_le_right _ _

/-- C7 witness: the weight facts and the retirement invariant evaluated for a
concrete pool, with total_liked 7 and play count 40 (boost capped at 3). -/
theorem lottery_weight_base_boost_retire_witness :
    (∀ l : List (String × ℚ), l ≠ [] → l.headD ("", 0) ∈ l) ∧
    ((7 : Nat) ≥ 5 → (7 : Nat) < 10 → base_weight 7 = 7) ∧
    recent_boost 40 ≤ 3 := by
  have hchoose : ∀ l : List (String × ℚ), l ≠ [] → l.headD ("", 0) ∈ l := by
    intro l hl
    cases l with
    | nil => exact absurd rfl hl
    | cons x xs => simp
  have hmain := lottery_weight_base_boost_retire (fun l => l.headD ("", 0))
    (fun _ => none) ["a", "b"] (fun x => if x = "a" then 10 else 4) 5 50 7 40
    hchoose
  exact ⟨hchoose, hmain.2.1, hmain.2.2.2.2.2.1⟩

/-- C7 counterexample: in a two-artist pool with weights 10 and 4, after the
first artist's draw fails, that artist is not offered again at half weight
(5): the next draw's candidate weights are exactly [("b", 4)], the drawn
artist having been permanently retired, contradicting the claim that the
weight is halved on each failed draw. -/
theorem no_weight_halving_counterexample :
    (run_lite_loop (fun l => l.headD ("", 0)) (fun _ => none) ["a", "b"]
        (fun x => if x = "a" then 10 else 4) 5 50 lite_loop_start).draws
      = ["a", "b"] ∧
    (run_lite_loop (fun l => l.headD ("", 0)) (fun _ => none) ["a", "b"]
        (fun x => if x = "a" then 10 else 4) 5 50
        lite_loop_start).weight_snapshots
      = [[("a", 10), ("b", 4)], [("b", 4)]] := by
  constructor <;> decide

/-- A lottery winner of the enhanced run: in liked_songs mode an artist id
with its display name, in the alternative modes a seed track id. -/
inductive Winner where
  | liked (aid : String) (name : String)
  | seed (tid : String)
  deriving Repr, DecidableEq

/-- An entry of the added_songs display list. -/
structure AddedSong where
  title : String
  artist : String
  spotify_url : String
  based_on_artist : String
  deriving Repr, DecidableEq

/-- The per-run discovery state of run_enhanced_recommendation_script:
selected tracks, display entries, the seen artist ids (seeded from the
destination playlist's artists) and the excluded track ids (seeded from
liked plus playlist track ids). -/
structure DiscoveryState where
  selected_tracks : List SpotifyTrack
  added_songs : List AddedSong
  seen_artist_ids : List String
  all_excluded_track_ids : List String
  deriving Repr, DecidableEq

/-- Per-artist data of the liked-songs pool (name, total_liked, weight). -/
structure ArtistInfo where
  name : String
  total_liked : Nat
  weight : ℚ
  deriving Repr, DecidableEq

/-- The environment of a run of run_enhanced_recommendation_script: the
run-level data it fetches up front and the external collaborators it calls,
as oracle functions.  sp_track models safe_spotify_call(sp.track, ...) (None
on failure), artist_followers the followers.total of sp.artist,
artist_genres the get_or_create_artist_genres lookup by artist name,
resolve_seed the whole seed-resolution phase of one winner iteration (the
liked-songs scan for a seed track plus the ensure_track_in_db retry loop and
the feature re-fetch), which either produces the seed's stored feature
vector or skips the winner, and choose/pick_seed the random draws. -/
structure EnhEnv where
  db_conn : Bool
  db : List AudioFeaturesRow
  artists_data : List (String × ArtistInfo)
  fetch_result : Except String (List String)
  liked_artist_ids : List String
  liked_track_ids : List String
  playlist_track_ids : List String
  playlist_artist_ids : List String
  choose : List (String × ℚ) → String × ℚ
  pick_seed : Nat → List String → String
  sp_track : String → Option SpotifyTrack
  artist_followers : String → Option Nat
  artist_genres : String → List String
  resolve_seed : Winner → Option Features

/-- The winner_aid variable of the enhanced loop (only read in liked_songs
mode, where it is the drawn artist's id). -/
def winner_aid : Winner → String
  | .liked aid _ => aid
  | .seed _ => ""

/-- The winner_name used for display and genre lookup: the drawn artist's
name in liked_songs mode, otherwise the seed track's first artist name
fetched from Spotify ("Unknown Artist" when the fetch fails; payloads are
assumed to carry at least one artist, as the source indexes artists[0]). -/
def winner_name (env : EnhEnv) : Winner → String
  | .liked _ name => name
  | .seed tid =>
    match env.sp_track tid with
    | some t =>
      (t.artists.headD
        { id := none, name := "Unknown Artist", followers := none }).name
    | none => "Unknown Artist"

/-- Shallow embedding of the candidate loop of
run_enhanced_recommendation_script (for candidate in similar_tracks): skip
candidates already excluded, skip candidates whose Spotify fetch fails, run
the validation chain, and on the first valid candidate fold it into the
state (append to selected tracks and display list, add its track id to the
exclusion set, add its artist ids to the seen set) and stop. -/
def process_candidates (env : EnhEnv) (pol : EnhPolicy)
    (w_aid w_name : String) (seed_genres : List String)
    (st : DiscoveryState) : List SimilarTrack → DiscoveryState
  | [] => st
  | c :: rest =>
    if st.all_excluded_track_ids.contains c.id then
      process_candidates env pol w_aid w_name seed_genres st rest
    else
      match env.sp_track c.id with
      | none => process_candidates env pol w_aid w_name seed_genres st rest
      | some tr =>
        if (enhanced_validate pol w_aid env.liked_artist_ids
              st.seen_artist_ids seed_genres env.artist_followers
              env.artist_genres tr).1 then
          { st with
            selected_tracks := st.selected_tracks ++ [tr]
            all_excluded_track_ids := st.all_excluded_track_ids ++ [c.id]
            seen_artist_ids := st.seen_artist_ids ++ candidate_artist_ids tr
            added_songs := st.added_songs ++
              [{ title := tr.name
                 artist := String.intercalate ", " (tr.artists.map ArtistObj.name)
                 spotify_url := tr.spotify_url
                 based_on_artist := w_name }] }
        else
          process_candidates env pol w_aid w_name seed_genres st rest

/-- Shallow embedding of one winner iteration of the enhanced loop: resolve
the seed (skipping the winner when that fails), fetch the seed artist's
genres, query the database for the 20 most similar tracks excluding the
current exclusion set, and run the candidate loop. -/
def process_winner (env : EnhEnv) (pol : EnhPolicy) (st : DiscoveryState)
    (w : Winner) : DiscoveryState :=
  match env.resolve_seed w with
  | none => st
  | some features =>
    let w_name := winner_name env w
    let seed_genres := env.artist_genres w_name
    let similar := find_most_similar_track_in_db env.db (some features)
      st.all_excluded_track_ids 20
    process_candidates env pol (winner_aid w) w_name seed_genres st similar

/-- Shallow embedding of the outer winner loop: stop once max_songs tracks
are selected, otherwise process the next winner. -/
def discovery_loop (env : EnhEnv) (pol : EnhPolicy) (max_songs : Nat) :
    List Winner → DiscoveryState → DiscoveryState
  | [], st => st
  | w :: ws, st =>
    if st.selected_tracks.length ≥ max_songs then st
    else discovery_loop env pol max_songs ws (process_winner env pol st w)

/-- The discovery state at the start of a run: no selections, the seen
artists seeded from the destination playlist, the excluded track ids the
union of liked and playlist track ids. -/
def discovery_start (env : EnhEnv) : DiscoveryState where
  selected_tracks := []
  added_songs := []
  seen_artist_ids := env.playlist_artist_ids
  all_excluded_track_ids := env.liked_track_ids ++ env.playlist_track_ids

/-- The configuration of a run of run_enhanced_recommendation_script. -/
structure RunConfig where
  output_playlist_id : String
  max_songs : Nat
  max_follower_count : Option Nat
  liked_songs_mode : Bool
  source_url : Option String
  enable_genre_matching : Bool
  deriving Repr, DecidableEq

/-- The structured result dict of a run. -/
structure RunResult where
  success : Bool
  tracks_added : Nat
  added_songs : List AddedSong
  error : Option String
  playlist_id : Option String
  deriving Repr, DecidableEq

/-- The validation policy induced by a run configuration. -/
def run_policy (cfg : RunConfig) : EnhPolicy where
  liked_songs_mode := cfg.liked_songs_mode
  max_follower_count := cfg.max_follower_count
  enable_genre_matching := cfg.enable_genre_matching

/-- A could-not-start result: success False with an error message. -/
def failure_result (msg : String) : RunResult where
  success := false
  tracks_added := 0
  added_songs := []
  error := some msg
  playlist_id := none

/-- The liked_songs-mode lottery phase: draw up to max_songs winners from
the artists_data pool (over at most max_songs * 3 iterations) and pair each
with its display name. -/
def liked_winners (env : EnhEnv) (cfg : RunConfig) : List Winner :=
  let artist_ids := env.artists_data.map Prod.fst
  let weight_of := fun a =>
    match env.artists_data.lookup a with
    | some info => info.weight
    | none => 0
  (draw_lottery_winners env.choose artist_ids weight_of cfg.max_songs
      (cfg.max_songs * 3) [] []).1.map fun aid =>
    Winner.liked aid
      (match env.artists_data.lookup aid with
       | some info => info.name
       | none => "")

/-- The alternative-mode seed selection: max_songs random picks from the
fetched seed tracks (repeats allowed). -/
def seed_winners (env : EnhEnv) (cfg : RunConfig) (seeds : List String) :
    List Winner :=
  (List.range cfg.max_songs).map fun i => Winner.seed (env.pick_seed i seeds)

/-- The result of a run that got past its start checks: run the discovery
loop and report success True with the selection counts (also when zero
tracks were accepted). -/
def success_result (env : EnhEnv) (cfg : RunConfig) (winners : List Winner) :
    RunResult :=
  let final := discovery_loop env (run_policy cfg) cfg.max_songs winners
    (discovery_start env)
  { success := true
    tracks_added := final.selected_tracks.length
    added_songs := final.added_songs
    error := none
    playlist_id := some cfg.output_playlist_id }

/-- Shallow embedding of run_enhanced_recommendation_script: the start
checks (database connection; in liked_songs mode a non-empty artist pool; in
the alternative modes a source URL whose fetch succeeds with at least one
track) return the failure shape, everything else runs the lottery and
discovery loop and returns the success shape.  The python body is wrapped in
a try/except returning the failure shape, and with the external calls
modelled as total oracles no later phase raises, so the failure shape arises
exactly from the start checks. -/
def run_enhanced_recommendation_script (env : EnhEnv) (cfg : RunConfig) :
    RunResult :=
  if !env.db_conn then
    failure_result "Could not connect to audio features database"
  else if cfg.liked_songs_mode then
    if env.artists_data.isEmpty then
      failure_result "No artists found with the configured minimum liked songs"
    else
      success_result env cfg (liked_winners env cfg)
  else
    match cfg.source_url with
    | none => failure_result "Source URL is required"
    | some _ =>
      match env.fetch_result with
      | .error e => failure_result ("Failed to fetch tracks from source: " ++ e)
      | .ok seeds =>
        if seeds.isEmpty then
          failure_result "No tracks found from source"
        else
          success_result env cfg (seed_winners env cfg seeds)

/-- The conditions under which the run cannot start. -/
def start_failure (env : EnhEnv) (cfg : RunConfig) : Bool :=
  !env.db_conn ||
  (cfg.liked_songs_mode && env.artists_data.isEmpty) ||
  (!cfg.liked_songs_mode &&
    (cfg.source_url.isNone ||
      (match env.fetch_result with
       | .error _ => true
       | .ok seeds => seeds.isEmpty)))

/-- A passed check chain has every check pass. -/
theorem run_checks_fst_true (l : List (EnhCheck × Bool))
    (h : (run_checks l).1 = true) : ∀ p ∈ l, p.2 = true := by
  induction l with
  | nil => intro p hp; cases hp
  | cons q rest ih =>
    obtain ⟨c, passed⟩ := q
    intro p hp
    cases passed with
    | false => simp [run_checks] at h
    | true =>
      rcases List.mem_cons.mp hp with hcase | hcase
      · rw [hcase]
      · exact ih (by simpa [run_checks] using h) p hcase

/-- A candidate accepted by the enhanced validation has no artist id in the
seen set: the playlist-duplication check is part of every chain. -/
theorem enhanced_validate_true_playlist_disjoint (pol : EnhPolicy)
    (w_aid : String) (liked seen seed_genres : List String)
    (followers : String → Option Nat) (genres : String → List String)
    (t : SpotifyTrack)
    (h : (enhanced_validate pol w_aid liked seen seed_genres followers
      genres t).1 = true) :
    ∀ a ∈ candidate_artist_ids t, a ∉ seen := by
  have hmem : ((.playlist_artist,
      !(candidate_artist_ids t).any seen.contains) : EnhCheck × Bool)
      ∈ enhanced_check_list pol w_aid liked seen seed_genres followers
          genres t := by
    simp [enhanced_check_list]
  have hcheck := run_checks_fst_true _ h _ hmem
  intro a ha hseen
  simp only [Bool.not_eq_true', List.any_eq_false] at hcheck
  have hc := hcheck a ha
  have hnot : a ∉ seen := by simpa using hc
  exact hnot hseen

/-- The candidate loop only grows the seen-artist and excluded-track sets. -/
theorem process_candidates_mono (env : EnhEnv) (pol : EnhPolicy)
    (w_aid w_name : String) (seed_genres : List String)
    (st : DiscoveryState) (cs : List SimilarTrack) :
    st.seen_artist_ids ⊆
      (process_candidates env pol w_aid w_name seed_genres st cs).seen_artist_ids ∧
    st.all_excluded_track_ids ⊆
      (process_candidates env pol w_aid w_name seed_genres st cs).all_excluded_track_ids := by
  induction cs generalizing st with
  | nil => exact ⟨List.Subset.refl _, List.Subset.refl _⟩
  | cons c rest ih =>
    rw [process_candidates]
    by_cases hexcl : st.all_excluded_track_ids.contains c.id
    · rw [if_pos hexcl]; exact ih st
    · rw [if_neg hexcl]
      cases htr : env.sp_track c.id with
      | none => exact ih st
      | some tr =>
        dsimp only
        by_cases hvalid : (enhanced_validate pol w_aid env.liked_artist_ids
            st.seen_artist_ids seed_genres env.artist_followers
            env.artist_genres tr).1
        · rw [if_pos hvalid]
          exact ⟨List.subset_append_left _ _, List.subset_append_left _ _⟩
        · rw [if_neg hvalid]; exact ih st

/-- A winner iteration only grows the seen-artist and excluded-track sets. -/
theorem process_winner_mono (env : EnhEnv) (pol : EnhPolicy)
    (st : DiscoveryState) (w : Winner) :
    st.seen_artist_ids ⊆ (process_winner env pol st w).seen_artist_ids ∧
    st.all_excluded_track_ids ⊆
      (process_winner env pol st w).all_excluded_track_ids := by
  unfold process_winner
  cases env.resolve_seed w with
  | none => exact ⟨List.Subset.refl _, List.Subset.refl _⟩
  | some features => exact process_candidates_mono _ _ _ _ _ _ _

/-- The discovery loop only grows the seen-artist and excluded-track sets. -/
theorem discovery_loop_mono (env : EnhEnv) (pol : EnhPolicy) (max_songs : Nat)
    (winners : List Winner) (st : DiscoveryState) :
    st.seen_artist_ids ⊆
      (discovery_loop env pol max_songs winners st).seen_artist_ids ∧
    st.all_excluded_track_ids ⊆
      (discovery_loop env pol max_songs winners st).all_excluded_track_ids := by
  induction winners generalizing st with
  | nil => exact ⟨List.Subset.refl _, List.Subset.refl _⟩
  | cons w ws ih =>
    rw [discovery_loop]
    by_cases hdone : st.selected_tracks.length ≥ max_songs
    · rw [if_pos hdone]; exact ⟨List.Subset.refl _, List.Subset.refl _⟩
    · rw [if_neg hdone]
      have h₁ := process_winner_mono env pol st w
      have h₂ := ih (process_winner env pol st w)
      exact ⟨h₁.1.trans h₂.1, h₁.2.trans h₂.2⟩

/-- Invariant of the discovery state: the initial seen set stays inside the
seen set, every selected track's artists are in the seen set, no two
selected tracks share an artist id, and no selected track's artist was in
the initial seen set. -/
def discovery_props (init_seen : List String) (st : DiscoveryState) : Prop :=
  init_seen ⊆ st.seen_artist_ids ∧
  (∀ t ∈ st.selected_tracks, ∀ a ∈ candidate_artist_ids t,
    a ∈ st.seen_artist_ids) ∧
  List.Pairwise
    (fun t₁ t₂ => ∀ a ∈ candidate_artist_ids t₁, a ∉ candidate_artist_ids t₂)
    st.selected_tracks ∧
  (∀ t ∈ st.selected_tracks, ∀ a ∈ candidate_artist_ids t, a ∉ init_seen)

/-- The candidate loop preserves the discovery invariant. -/
theorem process_candidates_invariant (env : EnhEnv) (pol : EnhPolicy)
    (w_aid w_name : String) (seed_genres : List String)
    (init_seen : List String) (st : DiscoveryState) (cs : List SimilarTrack)
    (h : discovery_props init_seen st) :
    discovery_props init_seen
      (process_candidates env pol w_aid w_name seed_genres st cs) := by
  induction cs generalizing st with
  | nil => exact h
  | cons c rest ih =>
    rw [process_candidates]
    by_cases hexcl : st.all_excluded_track_ids.contains c.id
    · rw [if_pos hexcl]; exact ih st h
    · rw [if_neg hexcl]
      cases htr : env.sp_track c.id with
      | none => exact ih st h
      | some tr =>
        dsimp only
        by_cases hvalid : (enhanced_validate pol w_aid env.liked_artist_ids
            st.seen_artist_ids seed_genres env.artist_followers
            env.artist_genres tr).1
        · rw [if_pos hvalid]
          obtain ⟨hinit, hseen, hpair, hnotinit⟩ := h
          have hdisj : ∀ a ∈ candidate_artist_ids tr, a ∉ st.seen_artist_ids :=
            enhanced_validate_true_playlist_disjoint _ _ _ _ _ _ _ _ hvalid
          refine ⟨?_, ?_, ?_, ?_⟩
          · exact hinit.trans (List.subset_append_left _ _)
          · intro t ht a ha
            rcases List.mem_append.mp ht with hcase | hcase
            · exact List.mem_append_left _ (hseen t hcase a ha)
            · simp only [List.mem_singleton] at hcase
              subst hcase
              exact List.mem_append_right _ ha
          · rw [List.pairwise_append]
            refine ⟨hpair, List.pairwise_singleton _ _, ?_⟩
            intro t₁ ht₁ t₂ ht₂ a ha hmem
            simp only [List.mem_singleton] at ht₂
            subst ht₂
            exact hdisj a hmem (hseen t₁ ht₁ a ha)
          · intro t ht a ha
            rcases List.mem_append.mp ht with hcase | hcase
            · exact hnotinit t hcase a ha
            · simp only [List.mem_singleton] at hcase
              subst hcase
              exact fun hin => hdisj a ha (hinit hin)
        · rw [if_neg hvalid]; exact ih st h

/-- One winner iteration preserves the discovery invariant. -/
theorem process_winner_invariant (env : EnhEnv) (pol : EnhPolicy)
    (init_seen : List String) (st : DiscoveryState) (w : Winner)
    (h : discovery_props init_seen st) :
    discovery_props init_seen (process_winner env pol st w) := by
  unfold process_winner
  cases env.resolve_seed w with
  | none => exact h
  | some features => exact process_candidates_invariant _ _ _ _ _ _ _ _ h

/-- The discovery loop preserves the discovery invariant. -/
theorem discovery_loop_invariant (env : EnhEnv) (pol : EnhPolicy)
    (max_songs : Nat) (winners : List Winner) (st : DiscoveryState)
    (init_seen : List String) (h : discovery_props init_seen st) :
    discovery_props init_seen (discovery_loop env pol max_songs winners st) := by
  induction winners generalizing st with
  | nil => exact h
  | cons w ws ih =>
    rw [discovery_loop]
    by_cases hdone : st.selected_tracks.length ≥ max_songs
    · rw [if_pos hdone]; exact h
    · rw [if_neg hdone]
      exact ih _ (process_winner_invariant env pol init_seen st w h)

/-- The candidate loop keeps the selection and display lists aligned. -/
theorem process_candidates_count (env : EnhEnv) (pol : EnhPolicy)
    (w_aid w_name : String) (seed_genres : List String)
    (st : DiscoveryState) (cs : List SimilarTrack)
    (h : st.selected_tracks.length = st.added_songs.length) :
    (process_candidates env pol w_aid w_name seed_genres st cs).selected_tracks.length
      = (process_candidates env pol w_aid w_name seed_genres st cs).added_songs.length := by
  induction cs generalizing st with
  | nil => exact h
  | cons c rest ih =>
    rw [process_candidates]
    by_cases hexcl : st.all_excluded_track_ids.contains c.id
    · rw [if_pos hexcl]; exact ih st h
    · rw [if_neg hexcl]
      cases htr : env.sp_track c.id with
      | none => exact ih st h
      | some tr =>
        dsimp only
        by_cases hvalid : (enhanced_validate pol w_aid env.liked_artist_ids
            st.seen_artist_ids seed_genres env.artist_followers
            env.artist_genres tr).1
        · rw [if_pos hvalid]
          simp [h]
        · rw [if_neg hvalid]; exact ih st h

/-- The discovery loop keeps the selection and display lists aligned. -/
theorem discovery_loop_count (env : EnhEnv) (pol : EnhPolicy)
    (max_songs : Nat) (winners : List Winner) (st : DiscoveryState)
    (h : st.selected_tracks.length = st.added_songs.length) :
    (discovery_loop env pol max_songs winners st).selected_tracks.length
      = (discovery_loop env pol max_songs winners st).added_songs.length := by
  induction winners generalizing st with
  | nil => exact h
  | cons w ws ih =>
    rw [discovery_loop]
    by_cases hdone : st.selected_tracks.length ≥ max_songs
    · rw [if_pos hdone]; exact h
    · rw [if_neg hdone]
      refine ih _ ?_
      unfold process_winner
      cases env.resolve_seed w with
      | none => exact h
      | some features => exact process_candidates_count _ _ _ _ _ _ _ h

/-- C8: during a run of the enhanced discovery loop the exclusion state only
grows (each winner iteration and the whole loop map the seen-artist and
excluded-track sets to supersets), and starting from the run's initial state
(the destination playlist's artists as seen set) no two selected tracks share
an artist id and no selected track carries an artist already present in the
destination playlist. -/
theorem exclusion_monotone_no_artist_reuse (env : EnhEnv) (pol : EnhPolicy)
    (max_songs : Nat) (winners : List Winner) :
    (∀ st w, st.seen_artist_ids ⊆ (process_winner env pol st w).seen_artist_ids ∧
      st.all_excluded_track_ids ⊆
        (process_winner env pol st w).all_excluded_track_ids) ∧
    (discovery_start env).seen_artist_ids ⊆
      (discovery_loop env pol max_songs winners
        (discovery_start env)).seen_artist_ids ∧
    (discovery_start env).all_excluded_track_ids ⊆
      (discovery_loop env pol max_songs winners
        (discovery_start env)).all_excluded_track_ids ∧
    List.Pairwise
      (fun t₁ t₂ => ∀ a ∈ candidate_artist_ids t₁, a ∉ candidate_artist_ids t₂)
      (discovery_loop env pol max_songs winners
        (discovery_start env)).selected_tracks ∧
    (∀ t ∈ (discovery_loop env pol max_songs winners
        (discovery_start env)).selected_tracks,
      ∀ a ∈ candidate_artist_ids t, a ∉ env.playlist_artist_ids) := by
  have hmono := discovery_loop_mono env pol max_songs winners
    (discovery_start env)
  have hstart : discovery_props env.playlist_artist_ids (discovery_start env) := by
    refine ⟨List.Subset.refl _, ?_, ?_, ?_⟩ <;> simp [discovery_start]
  have hinv := discovery_loop_invariant env pol max_songs winners
    (discovery_start env) env.playlist_artist_ids hstart
  obtain ⟨_, _, hpair, hnotinit⟩ := hinv
  exact ⟨fun st w => process_winner_mono env pol st w, hmono.1, hmono.2,
    hpair, hnotinit⟩

/-- A concrete run environment used to instantiate the run-level theorems. -/
def sample_env : EnhEnv where
  db_conn := true
  db := []
  artists_data := [("a", { name := "A", total_liked := 3, weight := 5 })]
  fetch_result := .ok []
  liked_artist_ids := []
  liked_track_ids := []
  playlist_track_ids := []
  playlist_artist_ids := ["pa"]
  choose := fun l => l.headD ("", 0)
  pick_seed := fun _ l => l.headD ""
  sp_track := fun _ => none
  artist_followers := fun _ => none
  artist_genres := fun _ => []
  resolve_seed := fun _ => none

/-- A concrete run configuration used to instantiate the run-level
theorems. -/
def sample_cfg : RunConfig where
  output_playlist_id := "p"
  max_songs := 1
  max_follower_count := none
  liked_songs_mode := true
  source_url := none
  enable_genre_matching := false

/-- C8 witness: the monotonicity of the exclusion state evaluated on a
concrete environment and winner list. -/
theorem exclusion_monotone_no_artist_reuse_witness :
    (discovery_start sample_env).seen_artist_ids ⊆
      (discovery_loop sample_env (run_policy sample_cfg) 1
        [Winner.liked "a" "A"] (discovery_start sample_env)).seen_artist_ids ∧
    (discovery_start sample_env).all_excluded_track_ids ⊆
      (discovery_loop sample_env (run_policy sample_cfg) 1
        [Winner.liked "a" "A"]
        (discovery_start sample_env)).all_excluded_track_ids :=
  ⟨(exclusion_monotone_no_artist_reuse sample_env (run_policy sample_cfg) 1
      [Winner.liked "a" "A"]).2.1,
   (exclusion_monotone_no_artist_reuse sample_env (run_policy sample_cfg) 1
      [Winner.liked "a" "A"]).2.2.1⟩

/-- C9: the top-level run always returns the structured result shape:
success is False exactly when the run cannot start (no database connection,
empty liked-songs pool, or in the alternative modes a missing source URL, a
failed fetch, or an empty seed list); a failed start reports zero tracks and
an error message; a started run reports success True with tracks_added equal
to the number of added-song entries (zero accepted tracks included) and the
destination playlist id. -/
theorem run_result_structured_shape (env : EnhEnv) (cfg : RunConfig) :
    ((run_enhanced_recommendation_script env cfg).success = false ↔
      start_failure env cfg = true) ∧
    ((run_enhanced_recommendation_script env cfg).success = false →
      (run_enhanced_recommendation_script env cfg).tracks_added = 0 ∧
      (run_enhanced_recommendation_script env cfg).error.isSome = true) ∧
    ((run_enhanced_recommendation_script env cfg).success = true →
      (run_enhanced_recommendation_script env cfg).error = none ∧
      (run_enhanced_recommendation_script env cfg).tracks_added =
        (run_enhanced_recommendation_script env cfg).added_songs.length ∧
      (run_enhanced_recommendation_script env cfg).playlist_id =
        some cfg.output_playlist_id) := by
  have hcount : ∀ winners,
      (discovery_loop env (run_policy cfg) cfg.max_songs winners
        (discovery_start env)).selected_tracks.length =
      (discovery_loop env (run_policy cfg) cfg.max_songs winners
        (discovery_start env)).added_songs.length :=
    fun winners => discovery_loop_count env (run_policy cfg) cfg.max_songs
      winners (discovery_start env) rfl
  unfold run_enhanced_recommendation_script start_failure
  cases hdb : env.db_conn with
  | false => simp [failure_result]
  | true =>
    cases hmode : cfg.liked_songs_mode with
    | true =>
      by_cases hart : env.artists_data.isEmpty
      · simp [hart, failure_result]
      · simp [hart, success_result, hcount]
    | false =>
      cases hsrc : cfg.source_url with
      | none => simp [failure_result]
      | some url =>
        cases hfetch : env.fetch_result with
        | error e => simp [failure_result]
        | ok seeds =>
          by_cases hseeds : seeds.isEmpty
          · simp [hseeds, failure_result]
          · simp [hseeds, success_result, hcount]

/-- C9 witness: a run over a non-empty artist pool whose every seed
resolution fails starts successfully and reports success True with zero
tracks added and no error. -/
theorem run_result_structured_shape_witness :
    start_failure sample_env sample_cfg = false ∧
    (run_enhanced_recommendation_script sample_env sample_cfg).success = true ∧
    (run_enhanced_recommendation_script sample_env sample_cfg).tracks_added = 0 ∧
    (run_enhanced_recommendation_script sample_env sample_cfg).error = none :=
  ⟨by decide, by decide, by decide,
   ((run_result_structured_shape sample_env sample_cfg).2.2 (by decide)).1⟩

end UserPlaylistGenerator
